import Mathlib

/-!
# zlimiter: the Redis driver (`driver/redis/redis.go`)

A shallow embedding of the client coordinator of the distributed rate limiter:
`RedisProxy.Add / Get / Set / Del`, `RedisBucket.Get`, `RedisProxy.LoadScript`,
`RedisProxy.scriptLoaded` and the `Init` functions.

Modelling choices.

* The Redis server and the redigo library are the environment.  A connection
  (`Conn σ`) answers every library call (`Script.Do`, `Script.SendHash`,
  `Script.Load`, `conn.Do`) with a reply or an error and moves the server
  state `σ`; nothing is assumed about how it answers.
* Every operation begins with `conn := r.RedisClient.Get()`.  The pool either
  hands out a connection (an idle one, a freshly dialled one or, when it is
  exhausted, an error connection all of whose calls fail), or it has to dial
  and `redis.Dial` fails, in which case the `Dial` closure installed by `Init`
  calls `log.Fatal` and the process ends before anything else happens
  (`Pool`).  The deferred `conn.Close()` has no influence on what the driver
  returns and is not recorded.
* Every call the driver issues and every `time.Sleep` is appended to the
  `trace` of the `World`, so that "which scripts ran" and "how long did the
  caller sleep" are observable.
* `int64` values are integers; the one place where the driver computes with
  them beyond comparison and division, the conversion of the wait time to a
  `time.Duration`, wraps explicitly (`wrapInt64`).
* Each operation reads the wall clock at most once; the reading
  (`time.Now().UnixNano()`) is the parameter `unixNano`.
* `log.Fatal` ends the process (`Outcome.fatal`); calling a method of a script
  missing from the `Scripts` map dereferences nil (`Outcome.panic`).
-/

namespace Zlimiter

/-! ## Values -/

/-- Modelled from the spec: the error-message constants of package `common`
(`common.ErrorItemNotExist`, ...), which `redis.go` only names; they are kept
symbolic, one constructor per constant. -/
inductive ErrorConst
  | ErrorItemNotExist
  | ErrorReqOverFlow
  | ErrorUnknown
  | ErrorInputParam
  | ErrorLoadScritp
  deriving DecidableEq, Repr

/-- A Go `error` as the driver creates or forwards it. -/
inductive GoError
  /-- The value `errors.New(common.X)`. -/
  | errorsNew (msg : ErrorConst)
  /-- The value `errors.New("error bad type")` of `scriptLoaded`. -/
  | badType
  /-- A transport or pool error handed back by redigo; redigo closes the
  connection on it, so later calls on the same connection fail as well. -/
  | redigo (msg : String)
  /-- An error reply of the server (`redis.Error`), returned by redigo as the
  error of the call; the connection stays usable. -/
  | redisError (msg : String)
  deriving DecidableEq, Repr

/-- The error `errors.New(common.ErrorItemNotExist)`. -/
abbrev ItemNotExist : GoError := .errorsNew .ErrorItemNotExist

/-- The error `errors.New(common.ErrorReqOverFlow)`. -/
abbrev ReqOverFlow : GoError := .errorsNew .ErrorReqOverFlow

/-- The error `errors.New(common.ErrorUnknown)`. -/
abbrev Unknown : GoError := .errorsNew .ErrorUnknown

/-- Modelled from the spec: the keys of the `Scripts` map, the integer
constants `common.RedisAddScript`, ..., `common.ReidsChkScript` (spelled as in
the source), which `redis.go` only names; they are kept symbolic and pairwise
distinct, as in the mapping `{ADD, GET, SET, DEL[, CHK]}` of the script bank. -/
inductive ScriptKey
  | RedisAddScript
  | RedisGetScript
  | RedisSetScript
  | RedisDelScript
  | ReidsChkScript
  deriving DecidableEq, Repr

/-- Modelled from the spec: the Lua sources the `Init` functions register,
whose text `redis.go` only names; each is identified by the Go constant that
holds it. -/
inductive ScriptSrc
  | FixAddStr | FixGetStr | FixSetStr | FixDelStr
  | SlideAddStr | SlideGetStr | SlideSetStr | SlideDelStr
  | BucketAddStr | BucketGetStr | BucketSetAddr | BucketDelAddr | BucketCheckAddr
  | TokenAddStr | TokenGetStr | TokenSetStr | TokenDelStr
  deriving DecidableEq, Repr

/-- The value `redis.NewScript(keyCount, src)`. -/
structure Script where
  keyCount : Nat
  src : ScriptSrc
  deriving DecidableEq, Repr

/-- An argument of a Redis command. -/
inductive Arg
  | str (s : String)
  | int (n : Int)
  /-- The SHA1 digest of a script source, `script.Hash()`. -/
  | sha1 (src : ScriptSrc)
  deriving DecidableEq, Repr

/-- The value `script.Hash()`. -/
def Script.Hash (s : Script) : Arg := .sha1 s.src

/-- A reply of redigo, by dynamic type. -/
inductive Reply
  | int64 (n : Int)
  | bytes (s : String)
  | string (s : String)
  | array (xs : List Reply)
  | nil

/-- A value of type `interface{}` as callers pass it in `args` / `others`. -/
inductive GoValue
  | int64 (n : Int)
  | int (n : Int)
  | string (s : String)
  | bool (b : Bool)
  | RedisInfo (Address Passwd : String)
  | nil
  deriving DecidableEq, Repr

/-- Two-s complement wrap-around of an integer into `int64`. -/
def wrapInt64 (n : Int) : Int := (n + 2 ^ 63) % 2 ^ 64 - 2 ^ 63

/-- The largest `int64`. -/
def maxInt64 : Int := 2 ^ 63 - 1

/-- The constant `time.Microsecond`, in nanoseconds. -/
def timeMicrosecond : Int := 1000

/-! ## The environment -/

/-- The calls the driver makes to redigo. -/
inductive Call
  /-- `script.Do(conn, keysAndArgs...)`: run the script, wait for its reply. -/
  | scriptDo (s : Script) (keysAndArgs : List Arg)
  /-- `script.SendHash(conn, keysAndArgs...)`: send `EVALSHA`, reply not read. -/
  | scriptSendHash (s : Script) (keysAndArgs : List Arg)
  /-- `script.Load(conn)`: `SCRIPT LOAD`. -/
  | scriptLoad (s : Script)
  /-- `conn.Do(cmd, args...)`. -/
  | connDo (cmd : String) (args : List Arg)
  deriving DecidableEq, Repr

/-- What the outside world sees of one operation. -/
inductive Event
  | call (c : Call)
  /-- The call `time.Sleep(d)`, `d` in nanoseconds. -/
  | sleep (d : Int)
  deriving DecidableEq, Repr

/-- A connection: how the server answers a call in state `σ`. -/
structure Conn (σ : Type) where
  exec : Call → σ → Except GoError Reply × σ

/-- What `r.RedisClient.Get()` comes to, with the `Dial` closure that
`RedisProxy.Init` installs in the pool. -/
inductive Pool (σ : Type)
  /-- The pool hands out a connection: an idle one, a freshly dialled one, or
  an error connection (pool exhausted) all of whose calls fail. -/
  | conn (c : Conn σ)
  /-- The pool has to dial and `redis.Dial` fails with `err`: the `Dial`
  closure calls `log.Fatal(err.Error())`. -/
  | dialFailed (err : GoError)

/-- The server state and the record of what the driver did so far. -/
structure World (σ : Type) where
  kv : σ
  trace : List Event

/-- What `log.Fatal` / `log.Fatalf` is called with. -/
inductive FatalMsg
  /-- The call `log.Fatalf("error bad param:%v", args)`. -/
  | badParam
  /-- The call `log.Fatal(errors.New(common.ErrorInputParam))`. -/
  | inputParam
  /-- The call `log.Fatalf(common.ErrorLoadScritp+" %s", key)`. -/
  | loadScritp (key : ScriptKey)
  /-- The call `log.Fatal(erro.Error())`. -/
  | error (erro : GoError)
  deriving DecidableEq, Repr

/-- How an operation ends: it returns, the process is ended by `log.Fatal`,
or it panics on a nil script. -/
inductive Outcome (α : Type)
  | ret (a : α)
  | fatal (msg : FatalMsg)
  | panic
  deriving DecidableEq, Repr

variable {σ : Type}

/-- Issue one call on the connection and record it. -/
def Conn.call (conn : Conn σ) (c : Call) (w : World σ) : Except GoError Reply × World σ :=
  ((conn.exec c w.kv).1, { kv := (conn.exec c w.kv).2, trace := w.trace ++ [Event.call c] })

/-- The call `time.Sleep(d)`. -/
def timeSleep (d : Int) (w : World σ) : World σ :=
  { w with trace := w.trace ++ [Event.sleep d] }

/-- The call `script.Do(conn, keysAndArgs...)`. -/
def Script.Do (s : Script) (conn : Conn σ) (keysAndArgs : List Arg) (w : World σ) :
    Except GoError Reply × World σ :=
  conn.call (.scriptDo s keysAndArgs) w

/-- The `error` of a call whose reply is not handed on: nil unless the call
failed. -/
def replyError : Except GoError Reply → Option GoError
  | .error erro => some erro
  | .ok _ => none

/-- The call `script.SendHash(conn, keysAndArgs...)`: only the error comes back. -/
def Script.SendHash (s : Script) (conn : Conn σ) (keysAndArgs : List Arg) (w : World σ) :
    Option GoError × World σ :=
  (replyError (conn.call (.scriptSendHash s keysAndArgs) w).1,
    (conn.call (.scriptSendHash s keysAndArgs) w).2)

/-- The call `script.Load(conn)`: only the error comes back. -/
def Script.Load (s : Script) (conn : Conn σ) (w : World σ) : Option GoError × World σ :=
  (replyError (conn.call (.scriptLoad s) w).1, (conn.call (.scriptLoad s) w).2)

/-- Time a goroutine is paused by `time.Sleep(d)`: a negative or zero duration
returns immediately. -/
def pauseNs (d : Int) : Int := if 0 < d then d else 0

/-- Total time, in nanoseconds, the caller was paused in a trace. -/
def sleptNs : List Event → Int
  | [] => 0
  | Event.sleep d :: es => pauseNs d + sleptNs es
  | Event.call _ :: es => sleptNs es

/-- Number of script invocations (`Script.Do`, `Script.SendHash`) issued in a
trace. -/
def scriptCalls : List Event → Nat
  | [] => 0
  | Event.call (.scriptDo _ _) :: es => scriptCalls es + 1
  | Event.call (.scriptSendHash _ _) :: es => scriptCalls es + 1
  | _ :: es => scriptCalls es

/-- The script invocations (`Script.Do`, `Script.SendHash`) issued in a trace,
in order, with their scripts and arguments. -/
def scriptInvocations : List Event → List Call
  | [] => []
  | Event.call (.scriptDo s keysAndArgs) :: es => .scriptDo s keysAndArgs :: scriptInvocations es
  | Event.call (.scriptSendHash s keysAndArgs) :: es =>
    .scriptSendHash s keysAndArgs :: scriptInvocations es
  | _ :: es => scriptInvocations es

/-! ## The driver -/

/-- The constant `redisScript`. -/
def redisScript : String := "SCRIPT"

/-- The constant `redisScriptExists`. -/
def redisScriptExists : String := "EXISTS"

/-- The struct `RedisProxy`: the `Scripts` map, as an association list (the
pool `RedisClient` is the environment, see `Pool`). -/
structure RedisProxy where
  Scripts : List (ScriptKey × Script)
  deriving DecidableEq, Repr

/-- The function `RedisProxy.scriptLoaded`: `SCRIPT EXISTS sha1Str`, expecting
a one-element array holding an `int64`. -/
def RedisProxy.scriptLoaded (_r : RedisProxy) (conn : Conn σ) (sha1Str : Arg) (w : World σ) :
    (Int × Option GoError) × World σ :=
  match conn.call (.connDo redisScript [.str redisScriptExists, sha1Str]) w with
  | (.error erro, w1) => ((-1, some erro), w1)
  | (.ok rsp, w1) =>
    match rsp with
    | .array [.int64 isLoaded] => ((isLoaded, none), w1)
    | _ => ((-1, some .badType), w1)

/-- The loop of `RedisProxy.LoadScript` over the entries of `Scripts`, in the
order the map iteration happens to visit them. -/
def RedisProxy.LoadScript.loop (r : RedisProxy) (conn : Conn σ) :
    List (ScriptKey × Script) → World σ → Outcome (Option GoError) × World σ
  | [], w => (.ret none, w)
  | (key, script) :: rest, w =>
    match r.scriptLoaded conn script.Hash w with
    | ((loaded, none), w1) =>
      if loaded = 0 then
        -- script.Load(conn): the returned error is dropped
        RedisProxy.LoadScript.loop r conn rest (script.Load conn w1).2
      else
        RedisProxy.LoadScript.loop r conn rest w1
    | ((_, some _), w1) => (.fatal (.loadScritp key), w1)

/-- The function `RedisProxy.LoadScript`: take a connection from the pool,
then check and load every script. -/
def RedisProxy.LoadScript (r : RedisProxy) (pool : Pool σ) (w : World σ) :
    Outcome (Option GoError) × World σ :=
  match pool with
  | .dialFailed err => (.fatal (.error err), w)
  | .conn conn => RedisProxy.LoadScript.loop r conn r.Scripts w

/-- The function `RedisProxy.Init`: one argument, a `RedisInfo`; then the
scripts are loaded; every failure is a `log.Fatal`. -/
def RedisProxy.Init (r : RedisProxy) (pool : Pool σ) (args : List GoValue) (w : World σ) :
    Outcome (Option GoError) × World σ :=
  match args with
  | [argsTmp] =>
    match argsTmp with
    | .RedisInfo _ _ =>
      match r.LoadScript pool w with
      | (.ret (some erro), w1) => (.fatal (.error erro), w1)
      | (.ret none, w1) => (.ret none, w1)
      | (.fatal msg, w1) => (.fatal msg, w1)
      | (.panic, w1) => (.panic, w1)
    | _ => (.fatal .inputParam, w)
  | _ => (.fatal .badParam, w)

/-- The function `RedisProxy.Add`: `others` is the variadic tail. -/
def RedisProxy.Add (r : RedisProxy) (pool : Pool σ) (key : String) (limit tmDuration unixNano : Int)
    (others : List GoValue) (w : World σ) : Outcome (Option GoError) × World σ :=
  match pool with
  | .dialFailed err => (.fatal (.error err), w)
  | .conn conn =>
    match others with
    | [o] =>
      match o with
      | .int64 max =>
        match r.Scripts.lookup .RedisAddScript with
        | none => (.panic, w)
        | some s =>
          (Outcome.ret (s.SendHash conn [.str key, .int limit, .int (tmDuration.tdiv 1000),
              .int (unixNano.tdiv 1000), .int max] w).1,
            (s.SendHash conn [.str key, .int limit, .int (tmDuration.tdiv 1000),
              .int (unixNano.tdiv 1000), .int max] w).2)
      | _ => (.ret (some Unknown), w)
    | [] =>
      match r.Scripts.lookup .RedisAddScript with
      | none => (.panic, w)
      | some s =>
        (Outcome.ret (s.SendHash conn [.str key, .int limit, .int (tmDuration.tdiv 1000),
            .int (unixNano.tdiv 1000)] w).1,
          (s.SendHash conn [.str key, .int limit, .int (tmDuration.tdiv 1000),
            .int (unixNano.tdiv 1000)] w).2)
    | _ => (.ret (some Unknown), w)

/-- The function `RedisProxy.Set`: `others` is the variadic tail. -/
def RedisProxy.Set (r : RedisProxy) (pool : Pool σ) (key : String) (limit tmDuration unixNano : Int)
    (others : List GoValue) (w : World σ) : Outcome (Option GoError) × World σ :=
  match pool with
  | .dialFailed err => (.fatal (.error err), w)
  | .conn conn =>
    match others with
    | [o] =>
      match o with
      | .int64 max =>
        match r.Scripts.lookup .RedisSetScript with
        | none => (.panic, w)
        | some s =>
          (Outcome.ret (s.SendHash conn [.str key, .int limit, .int (tmDuration.tdiv 1000),
              .int (unixNano.tdiv 1000), .int max] w).1,
            (s.SendHash conn [.str key, .int limit, .int (tmDuration.tdiv 1000),
              .int (unixNano.tdiv 1000), .int max] w).2)
      | _ => (.ret (some Unknown), w)
    | [] =>
      match r.Scripts.lookup .RedisSetScript with
      | none => (.panic, w)
      | some s =>
        (Outcome.ret (s.SendHash conn [.str key, .int limit, .int (tmDuration.tdiv 1000),
            .int (unixNano.tdiv 1000)] w).1,
          (s.SendHash conn [.str key, .int limit, .int (tmDuration.tdiv 1000),
            .int (unixNano.tdiv 1000)] w).2)
    | _ => (.ret (some Unknown), w)

/-- The function `RedisProxy.Get`: the result is `(reached, left, err)`. -/
def RedisProxy.Get (r : RedisProxy) (pool : Pool σ) (key : String) (unixNano : Int) (w : World σ) :
    Outcome (Bool × Int × Option GoError) × World σ :=
  match pool with
  | .dialFailed err => (.fatal (.error err), w)
  | .conn conn =>
    match r.Scripts.lookup .RedisGetScript with
    | none => (.panic, w)
    | some s =>
      match s.Do conn [.str key, .int (unixNano.tdiv 1000)] w with
      | (.error erro, w1) => (.ret (false, -1, some erro), w1)
      | (.ok rsp, w1) =>
        match rsp with
        | .int64 left =>
          if left = -2 then (.ret (false, -1, some ItemNotExist), w1)
          else if left = -1 then (.ret (true, 0, none), w1)
          else (.ret (decide (left < 0), left, none), w1)
        | _ => (.ret (false, 0, some Unknown), w1)

/-- The function `RedisProxy.Del`. -/
def RedisProxy.Del (r : RedisProxy) (pool : Pool σ) (key : String) (w : World σ) :
    Outcome (Option GoError) × World σ :=
  match pool with
  | .dialFailed err => (.fatal (.error err), w)
  | .conn conn =>
    match r.Scripts.lookup .RedisDelScript with
    | none => (.panic, w)
    | some s => (Outcome.ret (s.SendHash conn [.str key] w).1, (s.SendHash conn [.str key] w).2)

/-- The second half of `RedisBucket.Get`, from the GET script on, on the
connection the first half took from the pool. -/
def RedisBucket.Get.enqueue (r : RedisProxy) (conn : Conn σ) (key : String) (unixNano : Int)
    (w : World σ) : Outcome (Bool × Int × Option GoError) × World σ :=
  match r.Scripts.lookup .RedisGetScript with
  | none => (.panic, w)
  | some s =>
    match s.Do conn [.str key, .int (unixNano.tdiv 1000)] w with
    | (.error erro, w1) => (.ret (false, -1, some erro), w1)
    | (.ok rsp, w1) =>
      match rsp with
      | .int64 waitTm =>
        if 0 ≤ waitTm then
          (.ret (false, -1, none), timeSleep (wrapInt64 (waitTm * timeMicrosecond)) w1)
        else if waitTm = -1 then (.ret (false, -1, some ReqOverFlow), w1)
        else (.ret (false, 0, some Unknown), w1)
      | _ => (.ret (false, 0, some Unknown), w1)

/-- The function `RedisBucket.Get`: the CHK script, then the GET script, then
the pacing sleep. -/
def RedisBucket.Get (r : RedisProxy) (pool : Pool σ) (key : String) (unixNano : Int) (w : World σ) :
    Outcome (Bool × Int × Option GoError) × World σ :=
  match pool with
  | .dialFailed err => (.fatal (.error err), w)
  | .conn conn =>
    match r.Scripts.lookup .ReidsChkScript with
    | none => (.panic, w)
    | some chk =>
      match chk.Do conn [.str key] w with
      | (.error erro, w1) => (.ret (false, -1, some erro), w1)
      | (.ok rsp, w1) =>
        match rsp with
        | .int64 chckStatus =>
          if chckStatus = -1 then (.ret (false, -1, some ReqOverFlow), w1)
          else if chckStatus = -2 then (.ret (false, -1, some ItemNotExist), w1)
          else RedisBucket.Get.enqueue r conn key unixNano w1
        | _ => RedisBucket.Get.enqueue r conn key unixNano w1

/-! ## The four limiters -/

/-- The four limiter types of the driver; each embeds `RedisProxy`. -/
inductive Limiter
  | RedisFixWindow
  | RedisSlideWindow
  | RedisBucket
  | RedisToken
  deriving DecidableEq, Repr

/-- The `Scripts` map each `Init` builds before it calls `RedisProxy.Init`. -/
def Limiter.proxy : Limiter → RedisProxy
  | .RedisFixWindow => ⟨[(.RedisAddScript, ⟨1, .FixAddStr⟩), (.RedisGetScript, ⟨1, .FixGetStr⟩),
      (.RedisSetScript, ⟨1, .FixSetStr⟩), (.RedisDelScript, ⟨1, .FixDelStr⟩)]⟩
  | .RedisSlideWindow => ⟨[(.RedisAddScript, ⟨1, .SlideAddStr⟩), (.RedisGetScript, ⟨1, .SlideGetStr⟩),
      (.RedisSetScript, ⟨1, .SlideSetStr⟩), (.RedisDelScript, ⟨1, .SlideDelStr⟩)]⟩
  | .RedisBucket => ⟨[(.RedisAddScript, ⟨1, .BucketAddStr⟩), (.RedisGetScript, ⟨1, .BucketGetStr⟩),
      (.RedisSetScript, ⟨1, .BucketSetAddr⟩), (.RedisDelScript, ⟨1, .BucketDelAddr⟩),
      (.ReidsChkScript, ⟨1, .BucketCheckAddr⟩)]⟩
  | .RedisToken => ⟨[(.RedisAddScript, ⟨1, .TokenAddStr⟩), (.RedisGetScript, ⟨1, .TokenGetStr⟩),
      (.RedisSetScript, ⟨1, .TokenSetStr⟩), (.RedisDelScript, ⟨1, .TokenDelStr⟩)]⟩

/-- The script a limiter registered under a key. -/
def Limiter.script (l : Limiter) (k : ScriptKey) : Option Script := l.proxy.Scripts.lookup k

/-- The `Init` of a limiter: register the scripts, then `RedisProxy.Init`,
whose result `RedisFixWindow` returns and the other three replace by nil. -/
def Limiter.Init (l : Limiter) (pool : Pool σ) (args : List GoValue) (w : World σ) :
    Outcome (Option GoError) × World σ :=
  match l with
  | .RedisFixWindow => l.proxy.Init pool args w
  | _ =>
    match l.proxy.Init pool args w with
    | (.ret _, w1) => (.ret none, w1)
    | (.fatal msg, w1) => (.fatal msg, w1)
    | (.panic, w1) => (.panic, w1)

/-- The method `Add` of a limiter: promoted from the embedded `RedisProxy`. -/
def Limiter.Add (l : Limiter) (pool : Pool σ) (key : String) (limit tmDuration unixNano : Int)
    (others : List GoValue) (w : World σ) : Outcome (Option GoError) × World σ :=
  l.proxy.Add pool key limit tmDuration unixNano others w

/-- The method `Set` of a limiter: promoted from the embedded `RedisProxy`. -/
def Limiter.Set (l : Limiter) (pool : Pool σ) (key : String) (limit tmDuration unixNano : Int)
    (others : List GoValue) (w : World σ) : Outcome (Option GoError) × World σ :=
  l.proxy.Set pool key limit tmDuration unixNano others w

/-- The method `Del` of a limiter: promoted from the embedded `RedisProxy`. -/
def Limiter.Del (l : Limiter) (pool : Pool σ) (key : String) (w : World σ) :
    Outcome (Option GoError) × World σ :=
  l.proxy.Del pool key w

/-- The method `Get` of a limiter: `RedisBucket` declares its own, the other
three use the one promoted from `RedisProxy`. -/
def Limiter.Get (l : Limiter) (pool : Pool σ) (key : String) (unixNano : Int) (w : World σ) :
    Outcome (Bool × Int × Option GoError) × World σ :=
  match l with
  | .RedisBucket => RedisBucket.Get l.proxy pool key unixNano w
  | _ => RedisProxy.Get l.proxy pool key unixNano w

/-! ## The two calls of the leaky-bucket `Get` -/

/-- The CHK invocation of the leaky-bucket `Get` for a key. -/
abbrev chkCall (key : String) : Call :=
  Call.scriptDo ⟨1, ScriptSrc.BucketCheckAddr⟩ [Arg.str key]

/-- The GET invocation of the leaky-bucket `Get` for a key and a clock reading. -/
abbrev getCall (key : String) (unixNano : Int) : Call :=
  Call.scriptDo ⟨1, ScriptSrc.BucketGetStr⟩ [Arg.str key, Arg.int (unixNano.tdiv 1000)]

/-! ## Microseconds, as the specification words them -/

/-- Nanoseconds to whole microseconds in the words of the specification:
integer division by 1000 truncating toward zero, that is, the sign of `ns`
times the whole part of `|ns| / 1000`.  The driver itself computes with Go's
`/` (`Int.tdiv` in `RedisProxy.Add` and `RedisProxy.Set`). -/
def microsecondsTowardZero (ns : Int) : Int := ns.sign * ((ns.natAbs / 1000 : Nat) : Int)

/-! ## A scripted server for concrete runs -/

/-- A connection that answers the calls it receives with a prepared list of
answers, in order; when the list is exhausted every call fails. -/
def scripted : Conn (List (Except GoError Reply)) where
  exec := fun _ answers =>
    match answers with
    | [] => (.error (.redigo "connection closed"), [])
    | a :: rest => (a, rest)

/-- The world in which the server will give the listed answers and nothing has
happened yet. -/
def World.start (answers : List (Except GoError Reply)) : World (List (Except GoError Reply)) :=
  { kv := answers, trace := [] }

/-! ## Decoding the reply of the GET script (`RedisProxy.Get`) -/

/-- The three limiters that use the `Get` of `RedisProxy` run it on their own
`Scripts` map. -/
theorem Limiter.Get_eq_proxy (l : Limiter) (hl : l ≠ Limiter.RedisBucket) (pool : Pool σ)
    (key : String) (unixNano : Int) (w : World σ) :
    l.Get pool key unixNano w = RedisProxy.Get l.proxy pool key unixNano w := by
  cases l <;> first
    | exact absurd rfl hl
    | rfl

/-- The result of `RedisProxy.Get` when the GET script replies the integer `r`. -/
theorem RedisProxy.Get_int64 (p : RedisProxy) (s : Script)
    (hs : p.Scripts.lookup ScriptKey.RedisGetScript = some s) (conn : Conn σ) (key : String)
    (unixNano : Int) (w : World σ) (r : Int)
    (hrep : (conn.exec (Call.scriptDo s [Arg.str key, Arg.int (unixNano.tdiv 1000)]) w.kv).1
      = Except.ok (Reply.int64 r)) :
    (p.Get (Pool.conn conn) key unixNano w).1
      = Outcome.ret (if r = -2 then (false, -1, some ItemNotExist)
          else if r = -1 then (true, 0, none) else (decide (r < 0), r, none)) := by
  simp only [RedisProxy.Get, hs, Script.Do, Conn.call, hrep]
  split_ifs <;> rfl

/-- C1: for each of the fixed-window, sliding-window and token-bucket limiters,
every key and every reply `r ≥ -1` of the GET script, `Get` returns a nil
error; `r = -1` is decoded as `(reached = true, left = 0)` and `r ≥ 0` as
`(reached = false, left = r)`. -/
theorem Get_decodes_reply (l : Limiter) (hl : l ≠ Limiter.RedisBucket) (s : Script)
    (hs : l.script ScriptKey.RedisGetScript = some s) (conn : Conn σ) (key : String)
    (unixNano : Int) (w : World σ) (r : Int) (hr : -1 ≤ r)
    (hrep : (conn.exec (Call.scriptDo s [Arg.str key, Arg.int (unixNano.tdiv 1000)]) w.kv).1
      = Except.ok (Reply.int64 r)) :
    (l.Get (Pool.conn conn) key unixNano w).1
      = Outcome.ret (if r = -1 then (true, 0, none) else (false, r, none)) := by
  rw [Limiter.Get_eq_proxy l hl, RedisProxy.Get_int64 l.proxy s hs conn key unixNano w r hrep]
  by_cases h1 : r = -1
  · subst h1; simp
  · have h2 : r ≠ -2 := by omega
    have h3 : ¬ r < 0 := by omega
    simp [h1, h2, h3]

/-- Witness of C1: a fixed-window limiter whose GET script replies `9`. -/
theorem Get_decodes_reply_witness :
    Limiter.RedisFixWindow ≠ Limiter.RedisBucket
    ∧ Limiter.RedisFixWindow.script ScriptKey.RedisGetScript = some ⟨1, ScriptSrc.FixGetStr⟩
    ∧ (-1 : Int) ≤ 9
    ∧ (Limiter.RedisFixWindow.Get (Pool.conn scripted) "test" 1700000000123456789
        (World.start [Except.ok (Reply.int64 9)])).1 = Outcome.ret (false, 9, none) :=
  ⟨by decide, rfl, by decide,
    Get_decodes_reply Limiter.RedisFixWindow (by decide) ⟨1, ScriptSrc.FixGetStr⟩ rfl scripted
      "test" 1700000000123456789 (World.start [Except.ok (Reply.int64 9)]) 9 (by decide) rfl⟩

/-- C2: for each of the fixed-window, sliding-window and token-bucket limiters
and every key, when the GET script replies `-2` (rule absent), `Get` returns
`reached = false`, `left = -1` and the error `ItemNotExist`. -/
theorem Get_absent_rule (l : Limiter) (hl : l ≠ Limiter.RedisBucket) (s : Script)
    (hs : l.script ScriptKey.RedisGetScript = some s) (conn : Conn σ) (key : String)
    (unixNano : Int) (w : World σ)
    (hrep : (conn.exec (Call.scriptDo s [Arg.str key, Arg.int (unixNano.tdiv 1000)]) w.kv).1
      = Except.ok (Reply.int64 (-2))) :
    (l.Get (Pool.conn conn) key unixNano w).1 = Outcome.ret (false, -1, some ItemNotExist) := by
  rw [Limiter.Get_eq_proxy l hl, RedisProxy.Get_int64 l.proxy s hs conn key unixNano w (-2) hrep]
  rfl

/-- Witness of C2: a token-bucket limiter whose GET script replies `-2`. -/
theorem Get_absent_rule_witness :
    Limiter.RedisToken ≠ Limiter.RedisBucket
    ∧ Limiter.RedisToken.script ScriptKey.RedisGetScript = some ⟨1, ScriptSrc.TokenGetStr⟩
    ∧ (Limiter.RedisToken.Get (Pool.conn scripted) "test" 1700000000123456789
        (World.start [Except.ok (Reply.int64 (-2))])).1
        = Outcome.ret (false, -1, some ItemNotExist) :=
  ⟨by decide, rfl,
    Get_absent_rule Limiter.RedisToken (by decide) ⟨1, ScriptSrc.TokenGetStr⟩ rfl scripted
      "test" 1700000000123456789 (World.start [Except.ok (Reply.int64 (-2))]) rfl⟩

/-- C3, the code at the failing input: on a fixed-window limiter (and likewise
on a sliding-window one), `Del("test")` followed by a `Get("test")` whose GET
script finds no state and replies `-2` yields `(false, -1, ItemNotExist)`:
`reached` is false and `left` is `-1`, where the claim and the assertions of
`TestRedisFixWindow` and `TestRedisSlideWindow` after `Del` have
`reached = true` and `left = -2`. -/
theorem Get_after_Del_not_reached :
    (Limiter.RedisFixWindow.Get (Pool.conn scripted) "test" 1700000000123456789
        (Limiter.RedisFixWindow.Del (Pool.conn scripted) "test"
          (World.start [Except.ok (Reply.int64 1), Except.ok (Reply.int64 (-2))])).2).1
        = Outcome.ret (false, -1, some ItemNotExist)
    ∧ (Limiter.RedisSlideWindow.Get (Pool.conn scripted) "test" 1700000000123456789
        (Limiter.RedisSlideWindow.Del (Pool.conn scripted) "test"
          (World.start [Except.ok (Reply.int64 1), Except.ok (Reply.int64 (-2))])).2).1
        = Outcome.ret (false, -1, some ItemNotExist)
    ∧ (Outcome.ret (false, -1, some ItemNotExist) : Outcome (Bool × Int × Option GoError))
        ≠ Outcome.ret (true, -2, some ItemNotExist) := by
  refine ⟨rfl, rfl, by decide⟩

/-! ## `Add` and `Set`: the optional capacity -/

/-- A `SendHash` appends exactly one event, the script invocation. -/
theorem Script.SendHash_trace (s : Script) (conn : Conn σ) (keysAndArgs : List Arg)
    (w : World σ) :
    (s.SendHash conn keysAndArgs w).2.trace
      = w.trace ++ [Event.call (Call.scriptSendHash s keysAndArgs)] :=
  rfl

/-- A `Script.Do` appends exactly one event, the script invocation. -/
theorem Script.Do_trace (s : Script) (conn : Conn σ) (keysAndArgs : List Arg) (w : World σ) :
    (s.Do conn keysAndArgs w).2.trace = w.trace ++ [Event.call (Call.scriptDo s keysAndArgs)] :=
  rfl

/-- Every limiter registers an ADD, a GET, a SET and a DEL script. -/
theorem Limiter.has_script (l : Limiter) (k : ScriptKey) (hk : k ≠ ScriptKey.ReidsChkScript) :
    ∃ s, l.proxy.Scripts.lookup k = some s := by
  cases l <;> cases k <;> first
    | exact absurd rfl hk
    | exact ⟨_, rfl⟩

/-- A list is never itself with one more element. -/
theorem append_singleton_ne {α : Type} (xs : List α) (x : α) : xs ++ [x] ≠ xs := by
  intro h
  have := congrArg List.length h
  simp at this

/-- The complete result of `RedisProxy.Add` on a connection handed out by the
pool: one `SendHash` of the ADD script when `others` is empty or a single
`int64`, the Unknown error and nothing else otherwise. -/
theorem RedisProxy.Add_conn (p : RedisProxy) (sa : Script)
    (hsa : p.Scripts.lookup ScriptKey.RedisAddScript = some sa) (conn : Conn σ) (key : String)
    (limit d t : Int) (others : List GoValue) (w : World σ) :
    p.Add (Pool.conn conn) key limit d t others w
      = (match others with
        | [] =>
          (Outcome.ret (replyError (conn.exec (Call.scriptSendHash sa
                [Arg.str key, Arg.int limit, Arg.int (d.tdiv 1000), Arg.int (t.tdiv 1000)]) w.kv).1),
              { kv := (conn.exec (Call.scriptSendHash sa
                [Arg.str key, Arg.int limit, Arg.int (d.tdiv 1000), Arg.int (t.tdiv 1000)]) w.kv).2,
                trace := w.trace ++ [Event.call (Call.scriptSendHash sa
                [Arg.str key, Arg.int limit, Arg.int (d.tdiv 1000), Arg.int (t.tdiv 1000)])] })
        | [GoValue.int64 max] =>
          (Outcome.ret (replyError (conn.exec (Call.scriptSendHash sa
                [Arg.str key, Arg.int limit, Arg.int (d.tdiv 1000), Arg.int (t.tdiv 1000),
                  Arg.int max]) w.kv).1),
              { kv := (conn.exec (Call.scriptSendHash sa
                [Arg.str key, Arg.int limit, Arg.int (d.tdiv 1000), Arg.int (t.tdiv 1000),
                  Arg.int max]) w.kv).2,
                trace := w.trace ++ [Event.call (Call.scriptSendHash sa
                [Arg.str key, Arg.int limit, Arg.int (d.tdiv 1000), Arg.int (t.tdiv 1000),
                  Arg.int max])] })
        | _ => (Outcome.ret (some Unknown), w)) := by
  unfold RedisProxy.Add
  rcases others with _ | ⟨o, _ | ⟨o2, rest⟩⟩
  · simp only [hsa, Script.SendHash, Conn.call]
  · cases o <;> simp only [hsa, Script.SendHash, Conn.call]
  · cases o <;> rfl

/-- The complete result of `RedisProxy.Set` on a connection handed out by the
pool: one `SendHash` of the SET script when `others` is empty or a single
`int64`, the Unknown error and nothing else otherwise. -/
theorem RedisProxy.Set_conn (p : RedisProxy) (ss : Script)
    (hss : p.Scripts.lookup ScriptKey.RedisSetScript = some ss) (conn : Conn σ) (key : String)
    (limit d t : Int) (others : List GoValue) (w : World σ) :
    p.Set (Pool.conn conn) key limit d t others w
      = (match others with
        | [] =>
          (Outcome.ret (replyError (conn.exec (Call.scriptSendHash ss
                [Arg.str key, Arg.int limit, Arg.int (d.tdiv 1000), Arg.int (t.tdiv 1000)]) w.kv).1),
              { kv := (conn.exec (Call.scriptSendHash ss
                [Arg.str key, Arg.int limit, Arg.int (d.tdiv 1000), Arg.int (t.tdiv 1000)]) w.kv).2,
                trace := w.trace ++ [Event.call (Call.scriptSendHash ss
                [Arg.str key, Arg.int limit, Arg.int (d.tdiv 1000), Arg.int (t.tdiv 1000)])] })
        | [GoValue.int64 max] =>
          (Outcome.ret (replyError (conn.exec (Call.scriptSendHash ss
                [Arg.str key, Arg.int limit, Arg.int (d.tdiv 1000), Arg.int (t.tdiv 1000),
                  Arg.int max]) w.kv).1),
              { kv := (conn.exec (Call.scriptSendHash ss
                [Arg.str key, Arg.int limit, Arg.int (d.tdiv 1000), Arg.int (t.tdiv 1000),
                  Arg.int max]) w.kv).2,
                trace := w.trace ++ [Event.call (Call.scriptSendHash ss
                [Arg.str key, Arg.int limit, Arg.int (d.tdiv 1000), Arg.int (t.tdiv 1000),
                  Arg.int max])] })
        | _ => (Outcome.ret (some Unknown), w)) := by
  unfold RedisProxy.Set
  rcases others with _ | ⟨o, _ | ⟨o2, rest⟩⟩
  · simp only [hss, Script.SendHash, Conn.call]
  · cases o <;> simp only [hss, Script.SendHash, Conn.call]
  · cases o <;> rfl

/-- C4, as stated, fails: a fixed-window `Add` that supplies a capacity and a
token-bucket `Set` that omits it both send their script to the server and
return nil, not the Unknown error. -/
theorem Add_Set_arity_counterexample :
    Limiter.RedisFixWindow.Add (Pool.conn scripted) "test" 10 2000000000 1700000000123456789
        [GoValue.int64 20] (World.start [Except.ok (Reply.int64 1)])
      = (Outcome.ret none,
          { kv := [], trace := [Event.call (Call.scriptSendHash ⟨1, ScriptSrc.FixAddStr⟩
              [Arg.str "test", Arg.int 10, Arg.int 2000000, Arg.int 1700000000123456,
                Arg.int 20])] })
    ∧ Limiter.RedisToken.Set (Pool.conn scripted) "test" 4 4000000000 1700000000123456789
        [] (World.start [Except.ok (Reply.int64 1)])
      = (Outcome.ret none,
          { kv := [], trace := [Event.call (Call.scriptSendHash ⟨1, ScriptSrc.TokenSetStr⟩
              [Arg.str "test", Arg.int 4, Arg.int 4000000, Arg.int 1700000000123456])] }) := by
  constructor <;> rfl

/-- C4, amended: the capacity arity is checked alike for all four limiter
kinds.  On a connection handed out by the pool, `Add` (and likewise `Set`)
sends its script once, with the capacity appended when one is given, and
returns the error of that send when the call passes no optional argument or a
single `int64`; it returns the Unknown error without issuing any call exactly
when the call passes more than one optional argument or a single one that is
not an `int64`.  When the pool has to dial and the dial fails, the process
ends in `log.Fatal` before the arity is looked at. -/
theorem Add_Set_arity (l : Limiter) (conn : Conn σ) (key : String)
    (limit d t : Int) (others : List GoValue) (w : World σ) :
    ∃ sa ss, l.script ScriptKey.RedisAddScript = some sa
      ∧ l.script ScriptKey.RedisSetScript = some ss
      ∧ l.Add (Pool.conn conn) key limit d t others w
        = (match others with
          | [] =>
            (Outcome.ret (replyError (conn.exec (Call.scriptSendHash sa
                  [Arg.str key, Arg.int limit, Arg.int (d.tdiv 1000), Arg.int (t.tdiv 1000)]) w.kv).1),
                { kv := (conn.exec (Call.scriptSendHash sa
                  [Arg.str key, Arg.int limit, Arg.int (d.tdiv 1000), Arg.int (t.tdiv 1000)]) w.kv).2,
                  trace := w.trace ++ [Event.call (Call.scriptSendHash sa
                  [Arg.str key, Arg.int limit, Arg.int (d.tdiv 1000), Arg.int (t.tdiv 1000)])] })
          | [GoValue.int64 max] =>
            (Outcome.ret (replyError (conn.exec (Call.scriptSendHash sa
                  [Arg.str key, Arg.int limit, Arg.int (d.tdiv 1000), Arg.int (t.tdiv 1000),
                    Arg.int max]) w.kv).1),
                { kv := (conn.exec (Call.scriptSendHash sa
                  [Arg.str key, Arg.int limit, Arg.int (d.tdiv 1000), Arg.int (t.tdiv 1000),
                    Arg.int max]) w.kv).2,
                  trace := w.trace ++ [Event.call (Call.scriptSendHash sa
                  [Arg.str key, Arg.int limit, Arg.int (d.tdiv 1000), Arg.int (t.tdiv 1000),
                    Arg.int max])] })
          | _ => (Outcome.ret (some Unknown), w))
      ∧ l.Set (Pool.conn conn) key limit d t others w
        = (match others with
          | [] =>
            (Outcome.ret (replyError (conn.exec (Call.scriptSendHash ss
                  [Arg.str key, Arg.int limit, Arg.int (d.tdiv 1000), Arg.int (t.tdiv 1000)]) w.kv).1),
                { kv := (conn.exec (Call.scriptSendHash ss
                  [Arg.str key, Arg.int limit, Arg.int (d.tdiv 1000), Arg.int (t.tdiv 1000)]) w.kv).2,
                  trace := w.trace ++ [Event.call (Call.scriptSendHash ss
                  [Arg.str key, Arg.int limit, Arg.int (d.tdiv 1000), Arg.int (t.tdiv 1000)])] })
          | [GoValue.int64 max] =>
            (Outcome.ret (replyError (conn.exec (Call.scriptSendHash ss
                  [Arg.str key, Arg.int limit, Arg.int (d.tdiv 1000), Arg.int (t.tdiv 1000),
                    Arg.int max]) w.kv).1),
                { kv := (conn.exec (Call.scriptSendHash ss
                  [Arg.str key, Arg.int limit, Arg.int (d.tdiv 1000), Arg.int (t.tdiv 1000),
                    Arg.int max]) w.kv).2,
                  trace := w.trace ++ [Event.call (Call.scriptSendHash ss
                  [Arg.str key, Arg.int limit, Arg.int (d.tdiv 1000), Arg.int (t.tdiv 1000),
                    Arg.int max])] })
          | _ => (Outcome.ret (some Unknown), w))
      ∧ (((l.Add (Pool.conn conn) key limit d t others w).1 = Outcome.ret (some Unknown)
          ∧ (l.Add (Pool.conn conn) key limit d t others w).2.trace = w.trace)
        ↔ (others ≠ [] ∧ ∀ max, others ≠ [GoValue.int64 max]))
      ∧ (((l.Set (Pool.conn conn) key limit d t others w).1 = Outcome.ret (some Unknown)
          ∧ (l.Set (Pool.conn conn) key limit d t others w).2.trace = w.trace)
        ↔ (others ≠ [] ∧ ∀ max, others ≠ [GoValue.int64 max]))
      ∧ (∀ err, l.Add (Pool.dialFailed err) key limit d t others w
          = (Outcome.fatal (FatalMsg.error err), w))
      ∧ (∀ err, l.Set (Pool.dialFailed err) key limit d t others w
          = (Outcome.fatal (FatalMsg.error err), w)) := by
  obtain ⟨sa, hsa⟩ := l.has_script ScriptKey.RedisAddScript (by decide)
  obtain ⟨ss, hss⟩ := l.has_script ScriptKey.RedisSetScript (by decide)
  refine ⟨sa, ss, hsa, hss, RedisProxy.Add_conn l.proxy sa hsa conn key limit d t others w,
    RedisProxy.Set_conn l.proxy ss hss conn key limit d t others w, ?_, ?_,
    fun err => rfl, fun err => rfl⟩
  · rw [Limiter.Add, RedisProxy.Add_conn l.proxy sa hsa conn key limit d t others w]
    rcases others with _ | ⟨o, _ | ⟨o2, rest⟩⟩
    · simp [append_singleton_ne]
    · cases o <;> simp [append_singleton_ne]
    · simp
  · rw [Limiter.Set, RedisProxy.Set_conn l.proxy ss hss conn key limit d t others w]
    rcases others with _ | ⟨o, _ | ⟨o2, rest⟩⟩
    · simp [append_singleton_ne]
    · cases o <;> simp [append_singleton_ne]
    · simp

/-! ## The leaky bucket: `RedisBucket.Get` -/

/-- The pause of a trace extended by more events. -/
theorem sleptNs_append (xs ys : List Event) : sleptNs (xs ++ ys) = sleptNs xs + sleptNs ys := by
  induction xs with
  | nil => simp [sleptNs]
  | cons e es ih => cases e <;> simp [sleptNs, ih, add_assoc]

/-- The script invocations of a trace extended by more events, counted. -/
theorem scriptCalls_append (xs ys : List Event) :
    scriptCalls (xs ++ ys) = scriptCalls xs + scriptCalls ys := by
  induction xs with
  | nil => simp [scriptCalls]
  | cons e es ih =>
    cases e with
    | sleep d => simp [scriptCalls, ih]
    | call c => cases c <;> simp [scriptCalls, ih] <;> omega

/-- The script invocations of a trace extended by more events, listed. -/
theorem scriptInvocations_append (xs ys : List Event) :
    scriptInvocations (xs ++ ys) = scriptInvocations xs ++ scriptInvocations ys := by
  induction xs with
  | nil => simp [scriptInvocations]
  | cons e es ih =>
    cases e with
    | sleep d => simp [scriptInvocations, ih]
    | call c => cases c <;> simp [scriptInvocations, ih]

/-- Counting the script invocations of a trace is taking the length of their
list. -/
theorem scriptCalls_eq_length (xs : List Event) :
    scriptCalls xs = (scriptInvocations xs).length := by
  induction xs with
  | nil => rfl
  | cons e es ih =>
    cases e with
    | sleep d => simp [scriptCalls, scriptInvocations, ih]
    | call c => cases c <;> simp [scriptCalls, scriptInvocations, ih]

/-- Below the overflow bound the conversion of a wait to a `time.Duration` is
exact. -/
theorem wrapInt64_micro (wait : Int) (h0 : 0 ≤ wait) (hmax : wait ≤ 9223372036854775) :
    wrapInt64 (wait * timeMicrosecond) = wait * 1000 := by
  unfold wrapInt64 timeMicrosecond
  have h : (wait * 1000 + 2 ^ 63) % 2 ^ 64 = wait * 1000 + 2 ^ 63 := by
    apply Int.emod_eq_of_lt <;> norm_num <;> omega
  rw [h]; ring

/-- The leaky-bucket `Get` once the CHK script has replied an integer that is
neither `-1` nor `-2`: the GET script runs next. -/
theorem RedisBucket.Get_chk_pass (conn : Conn σ) (key : String) (unixNano : Int) (w : World σ)
    (c : Int) (h1 : c ≠ -1) (h2 : c ≠ -2)
    (hchk : (conn.exec (chkCall key) w.kv).1 = Except.ok (Reply.int64 c)) :
    Limiter.RedisBucket.Get (Pool.conn conn) key unixNano w
      = RedisBucket.Get.enqueue Limiter.RedisBucket.proxy conn key unixNano
          { kv := (conn.exec (chkCall key) w.kv).2,
            trace := w.trace ++ [Event.call (chkCall key)] } := by
  have hl : Limiter.RedisBucket.proxy.Scripts.lookup ScriptKey.ReidsChkScript
      = some ⟨1, ScriptSrc.BucketCheckAddr⟩ := rfl
  simp only [Limiter.Get, RedisBucket.Get, hl, Script.Do, Conn.call, hchk, h1, h2, if_false]

/-- C5: for every key, when the leaky-bucket CHK script replies `-1` (queue
full), the leaky-bucket `Get` returns `(reached = false, left = -1,
err = ReqOverFlow)` and the CHK invocation is all it did: the GET script is
not invoked and there is no sleep. -/
theorem Bucket_Get_overflow (conn : Conn σ) (key : String) (unixNano : Int) (w : World σ)
    (hchk : (conn.exec (chkCall key) w.kv).1 = Except.ok (Reply.int64 (-1))) :
    Limiter.RedisBucket.Get (Pool.conn conn) key unixNano w
      = (Outcome.ret (false, -1, some ReqOverFlow),
          { kv := (conn.exec (chkCall key) w.kv).2,
            trace := w.trace ++ [Event.call (chkCall key)] }) := by
  have hl : Limiter.RedisBucket.proxy.Scripts.lookup ScriptKey.ReidsChkScript
      = some ⟨1, ScriptSrc.BucketCheckAddr⟩ := rfl
  simp only [Limiter.Get, RedisBucket.Get, hl, Script.Do, Conn.call, hchk, if_true]

/-- Witness of C5: the CHK script replies `-1`; the GET script, which would
have replied a wait, is never asked. -/
theorem Bucket_Get_overflow_witness :
    Limiter.RedisBucket.Get (Pool.conn scripted) "test" 1700000000123456789
        (World.start [Except.ok (Reply.int64 (-1)), Except.ok (Reply.int64 1000000)])
      = (Outcome.ret (false, -1, some ReqOverFlow),
          { kv := [Except.ok (Reply.int64 1000000)],
            trace := [Event.call (chkCall "test")] }) :=
  Bucket_Get_overflow scripted "test" 1700000000123456789
    (World.start [Except.ok (Reply.int64 (-1)), Except.ok (Reply.int64 1000000)]) rfl

/-- C6, as stated, fails: with CHK replying `0` and GET replying the wait
`9223372036854776` microseconds, the product with `time.Microsecond` leaves
`int64`, `time.Sleep` is called with a negative duration and the caller is not
paused at all. -/
theorem Bucket_Get_paces_counterexample :
    (0 : Int) ≤ 9223372036854776
    ∧ 9223372036854776 ≤ maxInt64
    ∧ Limiter.RedisBucket.Get (Pool.conn scripted) "test" 1700000000123456789
        (World.start [Except.ok (Reply.int64 0), Except.ok (Reply.int64 9223372036854776)])
      = (Outcome.ret (false, -1, none),
          { kv := [],
            trace := [Event.call (chkCall "test"), Event.call (getCall "test" 1700000000123456789),
              Event.sleep (-9223372036854775616)] })
    ∧ sleptNs (Limiter.RedisBucket.Get (Pool.conn scripted) "test" 1700000000123456789
        (World.start [Except.ok (Reply.int64 0),
          Except.ok (Reply.int64 9223372036854776)])).2.trace = 0
    ∧ sleptNs (Limiter.RedisBucket.Get (Pool.conn scripted) "test" 1700000000123456789
        (World.start [Except.ok (Reply.int64 0),
          Except.ok (Reply.int64 9223372036854776)])).2.trace ≠ 9223372036854776 * 1000 := by
  refine ⟨by decide, by decide, ?_, ?_, ?_⟩
  · rfl
  · rfl
  · decide

/-- C6, amended: for every key and every wait `wait ≥ 0` replied by the
leaky-bucket GET script after CHK replied `0`, the leaky-bucket `Get` runs
CHK, runs GET, calls `time.Sleep` once with
`time.Duration(wait) * time.Microsecond` and then returns
`(reached = false, left = -1, err = nil)`; when `wait ≤ 9223372036854775`, so
that `wait * 1000` nanoseconds is a `time.Duration`, it sleeps exactly `wait`
microseconds (no sleep time when `wait = 0`). -/
theorem Bucket_Get_paces (conn : Conn σ) (key : String) (unixNano : Int) (w : World σ)
    (wait : Int) (h0 : 0 ≤ wait)
    (hchk : (conn.exec (chkCall key) w.kv).1 = Except.ok (Reply.int64 0))
    (hget : (conn.exec (getCall key unixNano) (conn.exec (chkCall key) w.kv).2).1
      = Except.ok (Reply.int64 wait)) :
    Limiter.RedisBucket.Get (Pool.conn conn) key unixNano w
      = (Outcome.ret (false, -1, none),
          { kv := (conn.exec (getCall key unixNano) (conn.exec (chkCall key) w.kv).2).2,
            trace := w.trace ++ [Event.call (chkCall key), Event.call (getCall key unixNano),
              Event.sleep (wrapInt64 (wait * timeMicrosecond))] })
    ∧ (wait ≤ 9223372036854775 →
        wrapInt64 (wait * timeMicrosecond) = wait * 1000
        ∧ sleptNs (Limiter.RedisBucket.Get (Pool.conn conn) key unixNano w).2.trace
          = sleptNs w.trace + wait * 1000) := by
  have hl : Limiter.RedisBucket.proxy.Scripts.lookup ScriptKey.RedisGetScript
      = some ⟨1, ScriptSrc.BucketGetStr⟩ := rfl
  have heq : Limiter.RedisBucket.Get (Pool.conn conn) key unixNano w
      = (Outcome.ret (false, -1, none),
          { kv := (conn.exec (getCall key unixNano) (conn.exec (chkCall key) w.kv).2).2,
            trace := w.trace ++ [Event.call (chkCall key), Event.call (getCall key unixNano),
              Event.sleep (wrapInt64 (wait * timeMicrosecond))] }) := by
    rw [RedisBucket.Get_chk_pass conn key unixNano w 0 (by decide) (by decide) hchk]
    simp only [RedisBucket.Get.enqueue, hl, Script.Do, Conn.call, hget, h0, if_true, timeSleep,
      List.append_assoc, List.singleton_append, List.cons_append, List.nil_append]
  refine ⟨heq, fun hmax => ⟨wrapInt64_micro wait h0 hmax, ?_⟩⟩
  rw [heq, wrapInt64_micro wait h0 hmax]
  have hp : pauseNs (wait * 1000) = wait * 1000 := by
    unfold pauseNs
    split_ifs with h
    · rfl
    · omega
  simp [sleptNs_append, sleptNs, hp]

/-- Witness of C6 (amended): a wait of one second. -/
theorem Bucket_Get_paces_witness :
    (0 : Int) ≤ 1000000 ∧ (1000000 : Int) ≤ 9223372036854775
    ∧ Limiter.RedisBucket.Get (Pool.conn scripted) "test" 1700000000123456789
        (World.start [Except.ok (Reply.int64 0), Except.ok (Reply.int64 1000000)])
      = (Outcome.ret (false, -1, none),
          { kv := [],
            trace := [Event.call (chkCall "test"), Event.call (getCall "test" 1700000000123456789),
              Event.sleep 1000000000] })
    ∧ sleptNs (Limiter.RedisBucket.Get (Pool.conn scripted) "test" 1700000000123456789
        (World.start [Except.ok (Reply.int64 0), Except.ok (Reply.int64 1000000)])).2.trace
      = 1000000000 :=
  ⟨by decide, by decide,
    (Bucket_Get_paces scripted "test" 1700000000123456789
      (World.start [Except.ok (Reply.int64 0), Except.ok (Reply.int64 1000000)]) 1000000
      (by decide) rfl rfl).1,
    ((Bucket_Get_paces scripted "test" 1700000000123456789
      (World.start [Except.ok (Reply.int64 0), Except.ok (Reply.int64 1000000)]) 1000000
      (by decide) rfl rfl).2 (by decide)).2⟩

/-- C7, the code at the failing input: the CHK script finds the rule (reply
`0`), the rule is gone when the GET script runs (reply `-2`), and the
leaky-bucket `Get` reports the Unknown error with `left = 0`, not
`ItemNotExist`. -/
theorem Bucket_Get_absent_at_GET :
    Limiter.RedisBucket.Get (Pool.conn scripted) "test" 1700000000123456789
        (World.start [Except.ok (Reply.int64 0), Except.ok (Reply.int64 (-2))])
      = (Outcome.ret (false, 0, some Unknown),
          { kv := [],
            trace := [Event.call (chkCall "test"),
              Event.call (getCall "test" 1700000000123456789)] })
    ∧ Unknown ≠ ItemNotExist := by
  constructor
  · rfl
  · decide

/-! ## Script invocations per operation -/

/-- The second half of the leaky-bucket `Get` issues exactly one script
invocation, the GET script with the key and the clock reading in
microseconds, whatever it replies. -/
theorem RedisBucket.Get.enqueue_invokes (conn : Conn σ) (key : String) (unixNano : Int)
    (w : World σ) :
    (RedisBucket.Get.enqueue Limiter.RedisBucket.proxy conn key unixNano w).2.kv
      = (conn.exec (getCall key unixNano) w.kv).2
    ∧ scriptInvocations
        (RedisBucket.Get.enqueue Limiter.RedisBucket.proxy conn key unixNano w).2.trace
      = scriptInvocations w.trace ++ [getCall key unixNano] := by
  have hl : Limiter.RedisBucket.proxy.Scripts.lookup ScriptKey.RedisGetScript
      = some ⟨1, ScriptSrc.BucketGetStr⟩ := rfl
  simp only [RedisBucket.Get.enqueue, hl, Script.Do, Conn.call]
  cases (conn.exec (Call.scriptDo ⟨1, ScriptSrc.BucketGetStr⟩
      [Arg.str key, Arg.int (unixNano.tdiv 1000)]) w.kv).1 with
  | error e => simp [scriptInvocations_append, scriptInvocations]
  | ok rsp =>
    cases rsp with
    | int64 waitTm =>
      simp only
      split_ifs <;> simp [timeSleep, scriptInvocations_append, scriptInvocations]
    | bytes b => simp [scriptInvocations_append, scriptInvocations]
    | string b => simp [scriptInvocations_append, scriptInvocations]
    | array xs => simp [scriptInvocations_append, scriptInvocations]
    | nil => simp [scriptInvocations_append, scriptInvocations]

/-- The generic `Get` on a connection handed out by the pool issues exactly
one call, the GET script with the key and the clock reading in microseconds. -/
theorem RedisProxy.Get_one_call (p : RedisProxy) (s : Script)
    (hs : p.Scripts.lookup ScriptKey.RedisGetScript = some s) (conn : Conn σ) (key : String)
    (unixNano : Int) (w : World σ) :
    (p.Get (Pool.conn conn) key unixNano w).2
      = { kv := (conn.exec (Call.scriptDo s [Arg.str key, Arg.int (unixNano.tdiv 1000)]) w.kv).2,
          trace := w.trace
            ++ [Event.call (Call.scriptDo s [Arg.str key, Arg.int (unixNano.tdiv 1000)])] } := by
  simp only [RedisProxy.Get, hs, Script.Do, Conn.call]
  cases (conn.exec (Call.scriptDo s [Arg.str key, Arg.int (unixNano.tdiv 1000)]) w.kv).1 with
  | error e => rfl
  | ok rsp =>
    cases rsp with
    | int64 left =>
      simp only
      split_ifs <;> rfl
    | bytes b => rfl
    | string b => rfl
    | array xs => rfl
    | nil => rfl

/-- The leaky-bucket `Get` on a connection handed out by the pool issues the
CHK script and, unless CHK failed or replied `-1` or `-2`, the GET script
after it. -/
theorem RedisBucket.Get_chk_then_get (conn : Conn σ) (key : String) (unixNano : Int)
    (w : World σ) :
    (Limiter.RedisBucket.Get (Pool.conn conn) key unixNano w).2.kv
      = (match (conn.exec (chkCall key) w.kv).1 with
          | Except.error _ => (conn.exec (chkCall key) w.kv).2
          | Except.ok (Reply.int64 c) =>
            if c = -1 ∨ c = -2 then (conn.exec (chkCall key) w.kv).2
            else (conn.exec (getCall key unixNano) (conn.exec (chkCall key) w.kv).2).2
          | Except.ok _ => (conn.exec (getCall key unixNano) (conn.exec (chkCall key) w.kv).2).2)
    ∧ scriptInvocations (Limiter.RedisBucket.Get (Pool.conn conn) key unixNano w).2.trace
      = scriptInvocations w.trace ++
        (match (conn.exec (chkCall key) w.kv).1 with
          | Except.error _ => [chkCall key]
          | Except.ok (Reply.int64 c) =>
            if c = -1 ∨ c = -2 then [chkCall key] else [chkCall key, getCall key unixNano]
          | Except.ok _ => [chkCall key, getCall key unixNano]) := by
  have hl : Limiter.RedisBucket.proxy.Scripts.lookup ScriptKey.ReidsChkScript
      = some ⟨1, ScriptSrc.BucketCheckAddr⟩ := rfl
  simp only [Limiter.Get, RedisBucket.Get, hl, Script.Do, Conn.call]
  cases (conn.exec (chkCall key) w.kv).1 with
  | error e => simp [scriptInvocations_append, scriptInvocations]
  | ok rsp =>
    cases rsp with
    | int64 c =>
      simp only
      by_cases h1 : c = -1
      · simp [h1, scriptInvocations_append, scriptInvocations]
      · by_cases h2 : c = -2
        · simp [h2, scriptInvocations_append, scriptInvocations]
        · simp [h1, h2, RedisBucket.Get.enqueue_invokes, scriptInvocations_append,
            scriptInvocations]
    | bytes b =>
      simp [RedisBucket.Get.enqueue_invokes, scriptInvocations_append, scriptInvocations]
    | string b =>
      simp [RedisBucket.Get.enqueue_invokes, scriptInvocations_append, scriptInvocations]
    | array xs =>
      simp [RedisBucket.Get.enqueue_invokes, scriptInvocations_append, scriptInvocations]
    | nil =>
      simp [RedisBucket.Get.enqueue_invokes, scriptInvocations_append, scriptInvocations]

/-- C8, as stated, fails: a leaky-bucket `Get` whose CHK script replies `0`
executes two script invocations (CHK, then GET), and a fixed-window `Add` with
two optional arguments executes none. -/
theorem script_invocations_counterexample :
    scriptCalls (Limiter.RedisBucket.Get (Pool.conn scripted) "test" 1700000000123456789
        (World.start [Except.ok (Reply.int64 0), Except.ok (Reply.int64 0)])).2.trace = 2
    ∧ scriptCalls (Limiter.RedisFixWindow.Add (Pool.conn scripted) "test" 10 2000000000
        1700000000123456789 [GoValue.int64 20, GoValue.int64 30]
        (World.start [Except.ok (Reply.int64 1)])).2.trace
      = 0 := by
  constructor <;> rfl

/-- C8, amended: counting the script calls an operation issues on its
connection (`Script.Do`, `Script.SendHash`; whether the server executes them is
the connection's matter).  On a connection handed out by the pool, every `Del`
issues exactly one (the DEL script with the key) and returns its error; every
`Get` of the fixed-window, sliding-window and token-bucket limiters issues
exactly one (the GET script); `Add` and `Set` issue exactly one (the ADD or SET
script) when called with no optional argument or with one `int64` capacity,
and otherwise none and return Unknown; the leaky-bucket `Get` issues the CHK
script and then, unless CHK failed or replied `-1` or `-2`, the GET script as a
second call.  When the pool has to dial and the dial fails, no operation
issues anything: the process ends in `log.Fatal`. -/
theorem script_invocations (l : Limiter) (conn : Conn σ) (key : String)
    (limit d t : Int) (others : List GoValue) (w : World σ) :
    ∃ sa sg ss sd, l.script ScriptKey.RedisAddScript = some sa
      ∧ l.script ScriptKey.RedisGetScript = some sg
      ∧ l.script ScriptKey.RedisSetScript = some ss
      ∧ l.script ScriptKey.RedisDelScript = some sd
      ∧ l.Del (Pool.conn conn) key w
        = (Outcome.ret (replyError (conn.exec (Call.scriptSendHash sd [Arg.str key]) w.kv).1),
            { kv := (conn.exec (Call.scriptSendHash sd [Arg.str key]) w.kv).2,
              trace := w.trace ++ [Event.call (Call.scriptSendHash sd [Arg.str key])] })
      ∧ l.Add (Pool.conn conn) key limit d t others w
        = (match others with
          | [] =>
            (Outcome.ret (replyError (conn.exec (Call.scriptSendHash sa
                  [Arg.str key, Arg.int limit, Arg.int (d.tdiv 1000), Arg.int (t.tdiv 1000)]) w.kv).1),
                { kv := (conn.exec (Call.scriptSendHash sa
                  [Arg.str key, Arg.int limit, Arg.int (d.tdiv 1000), Arg.int (t.tdiv 1000)]) w.kv).2,
                  trace := w.trace ++ [Event.call (Call.scriptSendHash sa
                  [Arg.str key, Arg.int limit, Arg.int (d.tdiv 1000), Arg.int (t.tdiv 1000)])] })
          | [GoValue.int64 max] =>
            (Outcome.ret (replyError (conn.exec (Call.scriptSendHash sa
                  [Arg.str key, Arg.int limit, Arg.int (d.tdiv 1000), Arg.int (t.tdiv 1000),
                    Arg.int max]) w.kv).1),
                { kv := (conn.exec (Call.scriptSendHash sa
                  [Arg.str key, Arg.int limit, Arg.int (d.tdiv 1000), Arg.int (t.tdiv 1000),
                    Arg.int max]) w.kv).2,
                  trace := w.trace ++ [Event.call (Call.scriptSendHash sa
                  [Arg.str key, Arg.int limit, Arg.int (d.tdiv 1000), Arg.int (t.tdiv 1000),
                    Arg.int max])] })
          | _ => (Outcome.ret (some Unknown), w))
      ∧ l.Set (Pool.conn conn) key limit d t others w
        = (match others with
          | [] =>
            (Outcome.ret (replyError (conn.exec (Call.scriptSendHash ss
                  [Arg.str key, Arg.int limit, Arg.int (d.tdiv 1000), Arg.int (t.tdiv 1000)]) w.kv).1),
                { kv := (conn.exec (Call.scriptSendHash ss
                  [Arg.str key, Arg.int limit, Arg.int (d.tdiv 1000), Arg.int (t.tdiv 1000)]) w.kv).2,
                  trace := w.trace ++ [Event.call (Call.scriptSendHash ss
                  [Arg.str key, Arg.int limit, Arg.int (d.tdiv 1000), Arg.int (t.tdiv 1000)])] })
          | [GoValue.int64 max] =>
            (Outcome.ret (replyError (conn.exec (Call.scriptSendHash ss
                  [Arg.str key, Arg.int limit, Arg.int (d.tdiv 1000), Arg.int (t.tdiv 1000),
                    Arg.int max]) w.kv).1),
                { kv := (conn.exec (Call.scriptSendHash ss
                  [Arg.str key, Arg.int limit, Arg.int (d.tdiv 1000), Arg.int (t.tdiv 1000),
                    Arg.int max]) w.kv).2,
                  trace := w.trace ++ [Event.call (Call.scriptSendHash ss
                  [Arg.str key, Arg.int limit, Arg.int (d.tdiv 1000), Arg.int (t.tdiv 1000),
                    Arg.int max])] })
          | _ => (Outcome.ret (some Unknown), w))
      ∧ (if l = Limiter.RedisBucket then
          (l.Get (Pool.conn conn) key t w).2.kv
            = (match (conn.exec (chkCall key) w.kv).1 with
                | Except.error _ => (conn.exec (chkCall key) w.kv).2
                | Except.ok (Reply.int64 c) =>
                  if c = -1 ∨ c = -2 then (conn.exec (chkCall key) w.kv).2
                  else (conn.exec (getCall key t) (conn.exec (chkCall key) w.kv).2).2
                | Except.ok _ => (conn.exec (getCall key t) (conn.exec (chkCall key) w.kv).2).2)
          ∧ scriptInvocations (l.Get (Pool.conn conn) key t w).2.trace
            = scriptInvocations w.trace ++
              (match (conn.exec (chkCall key) w.kv).1 with
                | Except.error _ => [chkCall key]
                | Except.ok (Reply.int64 c) =>
                  if c = -1 ∨ c = -2 then [chkCall key] else [chkCall key, getCall key t]
                | Except.ok _ => [chkCall key, getCall key t])
        else
          (l.Get (Pool.conn conn) key t w).2
            = { kv := (conn.exec (Call.scriptDo sg [Arg.str key, Arg.int (t.tdiv 1000)]) w.kv).2,
                trace := w.trace
                  ++ [Event.call (Call.scriptDo sg [Arg.str key, Arg.int (t.tdiv 1000)])] })
      ∧ (∀ err, l.Get (Pool.dialFailed err) key t w = (Outcome.fatal (FatalMsg.error err), w)
          ∧ l.Del (Pool.dialFailed err) key w = (Outcome.fatal (FatalMsg.error err), w)
          ∧ l.Add (Pool.dialFailed err) key limit d t others w
            = (Outcome.fatal (FatalMsg.error err), w)
          ∧ l.Set (Pool.dialFailed err) key limit d t others w
            = (Outcome.fatal (FatalMsg.error err), w)) := by
  obtain ⟨sa, hsa⟩ := l.has_script ScriptKey.RedisAddScript (by decide)
  obtain ⟨ss, hss⟩ := l.has_script ScriptKey.RedisSetScript (by decide)
  obtain ⟨sd, hsd⟩ := l.has_script ScriptKey.RedisDelScript (by decide)
  obtain ⟨sg, hsg⟩ := l.has_script ScriptKey.RedisGetScript (by decide)
  refine ⟨sa, sg, ss, sd, hsa, hsg, hss, hsd, ?_,
    RedisProxy.Add_conn l.proxy sa hsa conn key limit d t others w,
    RedisProxy.Set_conn l.proxy ss hss conn key limit d t others w, ?_, ?_⟩
  · simp only [Limiter.Del, RedisProxy.Del, hsd, Script.SendHash, Conn.call]
  · by_cases hb : l = Limiter.RedisBucket
    · subst hb
      rw [if_pos rfl]
      exact RedisBucket.Get_chk_then_get conn key t w
    · rw [if_neg hb, Limiter.Get_eq_proxy l hb]
      exact RedisProxy.Get_one_call l.proxy sg hsg conn key t w
  · intro err
    refine ⟨?_, rfl, rfl, rfl⟩
    cases l <;> rfl

/-! ## Loading the scripts -/

/-- As long as every `SCRIPT EXISTS` check is answered with a one-element
integer array, the loop of `LoadScript` ends with a nil error whatever the
`SCRIPT LOAD` calls answer: the error of `script.Load` is never looked at. -/
theorem RedisProxy.LoadScript.loop_ret (r : RedisProxy) (conn : Conn σ)
    (hex : ∀ sha kv, ∃ n, (conn.exec (Call.connDo redisScript [Arg.str redisScriptExists, sha])
      kv).1 = Except.ok (Reply.array [Reply.int64 n]))
    (scripts : List (ScriptKey × Script)) (w : World σ) :
    (RedisProxy.LoadScript.loop r conn scripts w).1 = Outcome.ret none := by
  induction scripts generalizing w with
  | nil => rfl
  | cons e rest ih =>
    obtain ⟨key, script⟩ := e
    obtain ⟨n, hn⟩ := hex script.Hash w.kv
    simp only [RedisProxy.LoadScript.loop, RedisProxy.scriptLoaded, Conn.call, hn]
    split_ifs <;> exact ih _

/-- When an upload fails in transport and the connection is dead from then on,
the next `SCRIPT EXISTS` check fails and `LoadScript` ends in
`log.Fatalf(common.ErrorLoadScritp ...)` for the script it was checking. -/
theorem LoadScript_fatal_on_dead_connection :
    (Limiter.RedisFixWindow.Init (Pool.conn scripted) [GoValue.RedisInfo "127.0.0.1:6379" "test"]
        (World.start [Except.ok (Reply.array [Reply.int64 0]),
          Except.error (GoError.redigo "write: broken pipe"),
          Except.error (GoError.redigo "write: broken pipe")])).1
      = Outcome.fatal (FatalMsg.loadScritp ScriptKey.RedisGetScript) :=
  rfl

/-- C9, the code at the failing input.  First run: the ADD script of a
fixed-window limiter is reported missing (`SCRIPT EXISTS` replies `[0]`), the
server answers its `SCRIPT LOAD` with an error reply (the connection stays
usable), the other three scripts are reported present; `LoadScript` drops the
error of the upload, checks the remaining scripts and returns nil, and `Init`
returns nil: initialization succeeds with the ADD script not loaded.  Second
run: the failing upload is the last script visited and fails in transport;
again `Init` returns nil. -/
theorem Init_ignores_failed_upload :
    Limiter.RedisFixWindow.proxy.LoadScript (Pool.conn scripted)
        (World.start [Except.ok (Reply.array [Reply.int64 0]),
          Except.error (GoError.redisError "ERR Error compiling script (new function)"),
          Except.ok (Reply.array [Reply.int64 1]), Except.ok (Reply.array [Reply.int64 1]),
          Except.ok (Reply.array [Reply.int64 1])])
      = (Outcome.ret none,
          { kv := [],
            trace := [
              Event.call (Call.connDo "SCRIPT" [Arg.str "EXISTS", Arg.sha1 ScriptSrc.FixAddStr]),
              Event.call (Call.scriptLoad ⟨1, ScriptSrc.FixAddStr⟩),
              Event.call (Call.connDo "SCRIPT" [Arg.str "EXISTS", Arg.sha1 ScriptSrc.FixGetStr]),
              Event.call (Call.connDo "SCRIPT" [Arg.str "EXISTS", Arg.sha1 ScriptSrc.FixSetStr]),
              Event.call (Call.connDo "SCRIPT" [Arg.str "EXISTS", Arg.sha1 ScriptSrc.FixDelStr])] })
    ∧ (Limiter.RedisFixWindow.Init (Pool.conn scripted)
        [GoValue.RedisInfo "127.0.0.1:6379" "test"]
        (World.start [Except.ok (Reply.array [Reply.int64 0]),
          Except.error (GoError.redisError "ERR Error compiling script (new function)"),
          Except.ok (Reply.array [Reply.int64 1]), Except.ok (Reply.array [Reply.int64 1]),
          Except.ok (Reply.array [Reply.int64 1])])).1
      = Outcome.ret none
    ∧ Limiter.RedisFixWindow.Init (Pool.conn scripted)
        [GoValue.RedisInfo "127.0.0.1:6379" "test"]
        (World.start [Except.ok (Reply.array [Reply.int64 1]),
          Except.ok (Reply.array [Reply.int64 1]), Except.ok (Reply.array [Reply.int64 1]),
          Except.ok (Reply.array [Reply.int64 0]),
          Except.error (GoError.redigo "write: broken pipe")])
      = (Outcome.ret none,
          { kv := [],
            trace := [
              Event.call (Call.connDo "SCRIPT" [Arg.str "EXISTS", Arg.sha1 ScriptSrc.FixAddStr]),
              Event.call (Call.connDo "SCRIPT" [Arg.str "EXISTS", Arg.sha1 ScriptSrc.FixGetStr]),
              Event.call (Call.connDo "SCRIPT" [Arg.str "EXISTS", Arg.sha1 ScriptSrc.FixSetStr]),
              Event.call (Call.connDo "SCRIPT" [Arg.str "EXISTS", Arg.sha1 ScriptSrc.FixDelStr]),
              Event.call (Call.scriptLoad ⟨1, ScriptSrc.FixDelStr⟩)] }) := by
  refine ⟨rfl, rfl, rfl⟩

/-! ## Replies of unexpected shape -/

/-- The generic `Get` answers a reply that is not an integer with the Unknown
error. -/
theorem RedisProxy.Get_not_int64 (p : RedisProxy) (s : Script)
    (hs : p.Scripts.lookup ScriptKey.RedisGetScript = some s) (conn : Conn σ) (key : String)
    (unixNano : Int) (w : World σ) (rsp : Reply) (hshape : ∀ n, rsp ≠ Reply.int64 n)
    (hrep : (conn.exec (Call.scriptDo s [Arg.str key, Arg.int (unixNano.tdiv 1000)]) w.kv).1
      = Except.ok rsp) :
    (p.Get (Pool.conn conn) key unixNano w).1 = Outcome.ret (false, 0, some Unknown) := by
  cases rsp with
  | int64 n => exact absurd rfl (hshape n)
  | bytes b => simp only [RedisProxy.Get, hs, Script.Do, Conn.call, hrep]
  | string b => simp only [RedisProxy.Get, hs, Script.Do, Conn.call, hrep]
  | array xs => simp only [RedisProxy.Get, hs, Script.Do, Conn.call, hrep]
  | nil => simp only [RedisProxy.Get, hs, Script.Do, Conn.call, hrep]

/-- The second half of the leaky-bucket `Get` answers a GET reply that is not
an integer with the Unknown error. -/
theorem RedisBucket.Get.enqueue_not_int64 (conn : Conn σ) (key : String) (unixNano : Int)
    (w : World σ) (rsp : Reply) (hshape : ∀ n, rsp ≠ Reply.int64 n)
    (hrep : (conn.exec (getCall key unixNano) w.kv).1 = Except.ok rsp) :
    (RedisBucket.Get.enqueue Limiter.RedisBucket.proxy conn key unixNano w).1
      = Outcome.ret (false, 0, some Unknown) := by
  have hl : Limiter.RedisBucket.proxy.Scripts.lookup ScriptKey.RedisGetScript
      = some ⟨1, ScriptSrc.BucketGetStr⟩ := rfl
  cases rsp with
  | int64 n => exact absurd rfl (hshape n)
  | bytes b => simp only [RedisBucket.Get.enqueue, hl, Script.Do, Conn.call, hrep]
  | string b => simp only [RedisBucket.Get.enqueue, hl, Script.Do, Conn.call, hrep]
  | array xs => simp only [RedisBucket.Get.enqueue, hl, Script.Do, Conn.call, hrep]
  | nil => simp only [RedisBucket.Get.enqueue, hl, Script.Do, Conn.call, hrep]

/-- C10, the code at the failing input: the CHK script of the leaky bucket
replies something that is not an integer (here a nil reply) and the GET script
replies `0`; the leaky-bucket `Get` passes over the CHK reply, runs the GET
script and returns `(false, -1, nil)`, not the Unknown error. -/
theorem Bucket_Get_malformed_CHK :
    Limiter.RedisBucket.Get (Pool.conn scripted) "test" 1700000000123456789
        (World.start [Except.ok Reply.nil, Except.ok (Reply.int64 0)])
      = (Outcome.ret (false, -1, none),
          { kv := [],
            trace := [Event.call (chkCall "test"),
              Event.call (getCall "test" 1700000000123456789), Event.sleep 0] })
    ∧ Limiter.RedisBucket.Get (Pool.conn scripted) "test" 1700000000123456789
        (World.start [Except.ok (Reply.bytes "full"), Except.ok (Reply.int64 0)])
      = (Outcome.ret (false, -1, none),
          { kv := [],
            trace := [Event.call (chkCall "test"),
              Event.call (getCall "test" 1700000000123456789), Event.sleep 0] }) := by
  constructor <;> rfl

/-! ## The arguments of the ADD and SET scripts -/

/-- Go's `n / 1e3` on an `int64` is the division by 1000 that truncates toward
zero. -/
theorem tdiv_thousand (n : Int) : n.tdiv 1000 = microsecondsTowardZero n := by
  unfold microsecondsTowardZero
  rcases n with m | m
  · rcases Nat.eq_zero_or_pos m with h | h
    · subst h; rfl
    · have hs : Int.sign (Int.ofNat m) = 1 := Int.sign_eq_one_of_pos (Int.ofNat_lt.mpr h)
      rw [hs, one_mul]
      rfl
  · have hs : Int.sign (Int.negSucc m) = -1 := rfl
    rw [hs]
    show -((((m + 1) / 1000 : Nat)) : Int) = -1 * _
    simp [Int.natAbs]

/-- C11: for every limiter, key, limit, duration `d` and clock reading `t`
(both in nanoseconds), on a connection handed out by the pool, all `Add` does
is send its ADD script, and all `Set` does is send its SET script, with
exactly the arguments `[key, limit, d / 1000, t / 1000]` when no capacity is
given and `[key, limit, d / 1000, t / 1000, capacity]` when an `int64`
capacity is given, the divisions truncating toward zero; each returns the
error of that send.  Duration and current time reach the script in
microseconds, and `Add` and `Set` build the same argument list. -/
theorem Add_Set_script_args (l : Limiter) (conn : Conn σ) (key : String)
    (limit d t capacity : Int) (w : World σ) :
    ∃ sa ss, l.script ScriptKey.RedisAddScript = some sa
      ∧ l.script ScriptKey.RedisSetScript = some ss
      ∧ l.Add (Pool.conn conn) key limit d t [] w
        = (Outcome.ret (replyError (conn.exec (Call.scriptSendHash sa
              [Arg.str key, Arg.int limit, Arg.int (microsecondsTowardZero d),
                Arg.int (microsecondsTowardZero t)]) w.kv).1),
            { kv := (conn.exec (Call.scriptSendHash sa
              [Arg.str key, Arg.int limit, Arg.int (microsecondsTowardZero d),
                Arg.int (microsecondsTowardZero t)]) w.kv).2,
              trace := w.trace ++ [Event.call (Call.scriptSendHash sa
              [Arg.str key, Arg.int limit, Arg.int (microsecondsTowardZero d),
                Arg.int (microsecondsTowardZero t)])] })
      ∧ l.Add (Pool.conn conn) key limit d t [GoValue.int64 capacity] w
        = (Outcome.ret (replyError (conn.exec (Call.scriptSendHash sa
              [Arg.str key, Arg.int limit, Arg.int (microsecondsTowardZero d),
                Arg.int (microsecondsTowardZero t), Arg.int capacity]) w.kv).1),
            { kv := (conn.exec (Call.scriptSendHash sa
              [Arg.str key, Arg.int limit, Arg.int (microsecondsTowardZero d),
                Arg.int (microsecondsTowardZero t), Arg.int capacity]) w.kv).2,
              trace := w.trace ++ [Event.call (Call.scriptSendHash sa
              [Arg.str key, Arg.int limit, Arg.int (microsecondsTowardZero d),
                Arg.int (microsecondsTowardZero t), Arg.int capacity])] })
      ∧ l.Set (Pool.conn conn) key limit d t [] w
        = (Outcome.ret (replyError (conn.exec (Call.scriptSendHash ss
              [Arg.str key, Arg.int limit, Arg.int (microsecondsTowardZero d),
                Arg.int (microsecondsTowardZero t)]) w.kv).1),
            { kv := (conn.exec (Call.scriptSendHash ss
              [Arg.str key, Arg.int limit, Arg.int (microsecondsTowardZero d),
                Arg.int (microsecondsTowardZero t)]) w.kv).2,
              trace := w.trace ++ [Event.call (Call.scriptSendHash ss
              [Arg.str key, Arg.int limit, Arg.int (microsecondsTowardZero d),
                Arg.int (microsecondsTowardZero t)])] })
      ∧ l.Set (Pool.conn conn) key limit d t [GoValue.int64 capacity] w
        = (Outcome.ret (replyError (conn.exec (Call.scriptSendHash ss
              [Arg.str key, Arg.int limit, Arg.int (microsecondsTowardZero d),
                Arg.int (microsecondsTowardZero t), Arg.int capacity]) w.kv).1),
            { kv := (conn.exec (Call.scriptSendHash ss
              [Arg.str key, Arg.int limit, Arg.int (microsecondsTowardZero d),
                Arg.int (microsecondsTowardZero t), Arg.int capacity]) w.kv).2,
              trace := w.trace ++ [Event.call (Call.scriptSendHash ss
              [Arg.str key, Arg.int limit, Arg.int (microsecondsTowardZero d),
                Arg.int (microsecondsTowardZero t), Arg.int capacity])] }) := by
  obtain ⟨sa, hsa⟩ := l.has_script ScriptKey.RedisAddScript (by decide)
  obtain ⟨ss, hss⟩ := l.has_script ScriptKey.RedisSetScript (by decide)
  refine ⟨sa, ss, hsa, hss, ?_, ?_, ?_, ?_⟩
  · rw [Limiter.Add, RedisProxy.Add_conn l.proxy sa hsa conn key limit d t [] w]
    simp only [tdiv_thousand]
  · rw [Limiter.Add,
      RedisProxy.Add_conn l.proxy sa hsa conn key limit d t [GoValue.int64 capacity] w]
    simp only [tdiv_thousand]
  · rw [Limiter.Set, RedisProxy.Set_conn l.proxy ss hss conn key limit d t [] w]
    simp only [tdiv_thousand]
  · rw [Limiter.Set,
      RedisProxy.Set_conn l.proxy ss hss conn key limit d t [GoValue.int64 capacity] w]
    simp only [tdiv_thousand]

/-- A run of C11 with a negative duration, where truncation toward zero and
rounding down differ: a token-bucket `Add` with `d = -1500` ns sends `-1` as
the duration in microseconds, on an error connection of an exhausted pool,
and returns the error of the send; `Set` sends the same list to the SET
script. -/
theorem Add_Set_negative_duration_run :
    Limiter.RedisToken.Add (Pool.conn scripted) "test" 4 (-1500) 1700000000123456789
        [GoValue.int64 20]
        (World.start [Except.error (GoError.redigo "redigo: connection pool exhausted")])
      = (Outcome.ret (some (GoError.redigo "redigo: connection pool exhausted")),
          { kv := [],
            trace := [Event.call (Call.scriptSendHash ⟨1, ScriptSrc.TokenAddStr⟩
              [Arg.str "test", Arg.int 4, Arg.int (-1), Arg.int 1700000000123456,
                Arg.int 20])] })
    ∧ Limiter.RedisToken.Set (Pool.conn scripted) "test" 4 (-1500) 1700000000123456789
        [GoValue.int64 20] (World.start [Except.ok (Reply.int64 1)])
      = (Outcome.ret none,
          { kv := [],
            trace := [Event.call (Call.scriptSendHash ⟨1, ScriptSrc.TokenSetStr⟩
              [Arg.str "test", Arg.int 4, Arg.int (-1), Arg.int 1700000000123456,
                Arg.int 20])] }) := by
  constructor <;> rfl

end Zlimiter
